import Mathlib

/-!
Verification development for the TranscrevAI file manager
(`src/file_manager.py`): the path sandbox (`sanitize_path`,
`FileManager.validate_path`), directory provisioning
(`FileManager.ensure_directory_exists`), the model acquisition pipeline
(`FileManager._sync_download_and_extract`,
`FileManager.download_and_extract_model`) and the temp-directory sweep
(`FileManager.cleanup_temp_dirs`).

The filesystem is modelled without symbolic links, so `Path.resolve`
becomes lexical normalization of an absolute component list; machine
integers do not occur.  Network and filesystem failures inside the
acquisition loop are modelled by an environment choosing the outcome of
each attempt, and the loop body mirrors the Python control flow
statement by statement.
-/

namespace TranscrevAI

/-- A raw (possibly relative) path as `pathlib.Path` sees it: an
absolute flag plus the list of components. -/
structure PyPath where
  isAbs : Bool
  comps : List String
deriving DecidableEq, Repr

/-- Lexical core of `Path.resolve()` on a filesystem without symlinks:
process components left to right, dropping `"."`, letting `".."` remove
the last accumulated component (clamped at the root, as POSIX does),
and appending anything else. -/
def normComps : List String → List String → List String
  | acc, [] => acc
  | acc, c :: rest =>
    if c = "." then normComps acc rest
    else if c = ".." then normComps acc.dropLast rest
    else normComps (acc ++ [c]) rest

/-- `Path.resolve(strict=False)`: make the path absolute against the
current working directory and normalize.  The result is the component
list of an absolute path. -/
def resolvePath (cwd : List String) (p : PyPath) : List String :=
  normComps [] ((if p.isAbs then [] else cwd) ++ p.comps)

/-- `Path.joinpath`: an absolute right operand replaces the left one. -/
def joinpath (b u : PyPath) : PyPath :=
  if u.isAbs then u else ⟨b.isAbs, b.comps ++ u.comps⟩

/-- `PurePath.is_relative_to(other)` on two resolved (absolute,
normalized) paths: the components of `anc` start the components of
`p`. -/
def listIsAncestor : List String → List String → Bool
  | [], _ => true
  | _ :: _, [] => false
  | a :: as, b :: bs => a = b && listIsAncestor as bs

/-- `sanitize_path(user_input, base_dir)` (file_manager.py lines 28-32):
join the user segment onto the base, resolve, and reject the result
when it is not the resolved base or a descendant of it. -/
def sanitize_path (cwd : List String) (user_input base_dir : PyPath) :
    Except String (List String) :=
  let resolved_path := resolvePath cwd (joinpath base_dir user_input)
  if !listIsAncestor (resolvePath cwd base_dir) resolved_path then
    Except.error "Attempted directory traversal"
  else
    Except.ok resolved_path

/-- The `"../../etc/passwd"` user segment used throughout the spec. -/
def traversalSegment : PyPath := ⟨false, ["..", "..", "etc", "passwd"]⟩

/-- Platform state consulted by `FileManager.validate_path`
(file_manager.py lines 291-319): whether the Android branch is active,
the shared-storage cache directory (`none` when querying it raises),
the internal-storage fallback, the desktop data directory
(`Path(__file__).parent.parent / "data"`), the system temp directory,
the set of directories that currently exist on disk, and the working
directory used by resolution. -/
structure ValidateEnv where
  mobileEnabled : Bool
  androidCache : Option (List String)
  androidInternal : List String
  baseData : List String
  tempDir : List String
  existing : List (List String)
  cwd : List String

/-- The `allowed_dirs` list built inside `validate_path`: on the Android
branch the shared-storage cache and the internal-storage path (both
skipped when the cache query raises), then always the desktop data
directory and the system temp directory. -/
def allowedDirs (env : ValidateEnv) : List (List String) :=
  (if env.mobileEnabled then
    match env.androidCache with
    | some c => [c, env.androidInternal]
    | none => []
  else []) ++ [env.baseData, env.tempDir]

/-- `Path.exists()` against the modelled filesystem. -/
def dirExists (env : ValidateEnv) (d : List String) : Bool :=
  env.existing.contains d

/-- `FileManager.validate_path(user_path)` (file_manager.py lines
291-319): resolve the input, build `allowed_dirs`, fail when the list
is empty, fail when no currently-existing allowed directory is an
ancestor of the resolved path, and otherwise return the resolved
path.  (Nothing in the model raises `ValueError`, so the outer
`except ValueError` arm is unreachable.) -/
def validate_path (env : ValidateEnv) (user_path : PyPath) :
    Except String (List String) :=
  let resolved := resolvePath env.cwd user_path
  let allowed := allowedDirs env
  if allowed.isEmpty then
    Except.error "No valid directories configured"
  else if (allowed.filter (dirExists env)).any
      (fun d => listIsAncestor d resolved) then
    Except.ok resolved
  else
    Except.error "Path violation"

/-- Whether the character list `s` starts with the character list
`pat`. -/
def listStartsWith : List Char → List Char → Bool
  | _, [] => true
  | [], _ :: _ => false
  | a :: as, b :: bs => a = b && listStartsWith as bs

/-- Whether `pat` occurs contiguously inside `s`. -/
def containsSub : List Char → List Char → Bool
  | [], pat => pat.isEmpty
  | c :: rest, pat => listStartsWith (c :: rest) pat || containsSub rest pat

/-- Python's `pat in s` on strings: substring containment. -/
def strContains (s pat : String) : Bool :=
  containsSub s.toList pat.toList

/-- Observable filesystem actions of `ensure_directory_exists`. -/
inductive DirAction where
  | mkdirs : String → DirAction
  | chmod : String → Nat → DirAction
deriving DecidableEq, Repr

/-- `FileManager.ensure_directory_exists(path)` (file_manager.py lines
219-227) as the list of filesystem actions it performs on its success
path: `os.makedirs(path, exist_ok=True)`, then
`os.chmod(path, 0o777)` exactly when the path string contains the
substring `"temp"` and `os.name != 'nt'`. -/
def ensure_directory_exists (path : String) (osName : String) :
    List DirAction :=
  [DirAction.mkdirs path] ++
    (if strContains path "temp" && !(osName = "nt") then
      [DirAction.chmod path 0o777]
    else [])

/-- A filesystem node: a regular file (contents irrelevant to the
claims) or a directory with named entries. -/
inductive FNode where
  | file : FNode
  | dir : List (String × FNode) → FNode

/-- Directory lookup by entry name (`os.path.exists(join(d, name))`
restricted to the entries of `d`). -/
def lookupEntry (name : String) : List (String × FNode) → Option FNode
  | [] => none
  | (n, t) :: rest => if n = name then some t else lookupEntry name rest

/-- The whitelist copied during promotion (file_manager.py lines 378
and 389). -/
def requiredFolders : List String := ["am", "conf", "graph", "ivector"]

/-- `os.path.isdir` on a modelled node. -/
def isDirNode : FNode → Bool
  | FNode.dir _ => true
  | FNode.file => false

/-- The entries of a directory node (`[]` on a file, unused there). -/
def dirEntries : FNode → List (String × FNode)
  | FNode.dir es => es
  | FNode.file => []

/-- Layout normalization (file_manager.py lines 370-371): when the
staging directory holds exactly one entry (`len(contents) == 1`) and
that entry is a directory (`os.path.isdir`), its contents are the
archive root; otherwise the staging directory itself is. -/
def archiveRoot (staging : List (String × FNode)) :
    List (String × FNode) :=
  match staging with
  | [(_, e)] => if isDirNode e then dirEntries e else staging
  | _ => staging

/-- Promotion (file_manager.py lines 371-394): after removing and
recreating the final model directory, copy each whitelisted folder
that exists under the archive root (`shutil.copytree`), in order,
discarding everything else. -/
def installBundle (staging : List (String × FNode)) :
    List (String × FNode) :=
  requiredFolders.foldl
    (fun acc f =>
      match lookupEntry f (archiveRoot staging) with
      | some t => acc ++ [(f, t)]
      | none => acc) []

/-- The filesystem and trace state relevant to one
`_sync_download_and_extract(url, language_code, output_dir)` call:
whether `<output_dir>/<language_code>.zip` exists, the contents of the
staging directory `<output_dir>/temp_<language_code>` when it exists,
the contents of the final model directory
`<output_dir>/<language_code>` when it exists, the `time.sleep`
durations performed so far, and the number of `requests.get` calls
issued. -/
structure SyncState where
  zipExists : Bool
  staging : Option (List (String × FNode))
  model : Option (List (String × FNode))
  sleeps : List Nat
  netCalls : Nat

/-- Environment choice for one attempt of the retry loop: the network
request raises (before the zip is written), or the download succeeds
but extraction raises leaving partial staging contents, or the whole
attempt succeeds with the given extracted archive contents. -/
inductive AttemptBehavior where
  | netFail : AttemptBehavior
  | extractFail : List (String × FNode) → AttemptBehavior
  | succeed : List (String × FNode) → AttemptBehavior

/-- One iteration of the `for attempt in range(3)` body
(file_manager.py lines 355-405), up to but not including the `except`
handler: issue `requests.get`; on network failure nothing else has
happened.  Otherwise the zip is written; the staging directory is
removed if present and recreated, and the archive is extracted into
it; on extraction failure the partial staging contents and the zip
remain.  On full success the model directory is removed, recreated and
filled from the whitelist, then the staging directory and the zip are
removed and the attempt returns the model path.  Returns the new state
and whether the attempt returned (`true`) or raised (`false`). -/
def runAttempt (b : AttemptBehavior) (s : SyncState) :
    SyncState × Bool :=
  match b with
  | .netFail => ({ s with netCalls := s.netCalls + 1 }, false)
  | .extractFail leftover =>
    ({ s with netCalls := s.netCalls + 1
              zipExists := true
              staging := some leftover }, false)
  | .succeed arc =>
    ({ s with netCalls := s.netCalls + 1
              zipExists := false
              staging := none
              model := some (installBundle arc) }, true)

/-- The retry loop (file_manager.py lines 354-408): run the attempt for
the current index; on success return the model path, on exception log,
sleep `2 * (attempt + 1)` seconds and continue with the next index
while fuel remains. -/
def syncAttemptLoop (env : Nat → AttemptBehavior) (modelPath : String) :
    Nat → Nat → SyncState → SyncState × Option String
  | _, 0, s => (s, none)
  | attempt, fuel + 1, s =>
    match runAttempt (env attempt) s with
    | (s', true) => (s', some modelPath)
    | (s', false) =>
      syncAttemptLoop env modelPath (attempt + 1) fuel
        { s' with sleeps := s'.sleeps ++ [2 * (attempt + 1)] }

/-- How a call to `_sync_download_and_extract` ends: a normal `return`
(carrying `some path`, or `none` for Python's implicit `return None`),
or a raised exception. -/
inductive SyncResult where
  | returned : Option String → SyncResult
  | raised : String → SyncResult
deriving DecidableEq, Repr

/-- `FileManager._sync_download_and_extract(url, language_code,
output_dir)` (file_manager.py lines 347-411).  If the model directory
exists and is non-empty, return its path at once.  Otherwise run up to
3 attempts; if none returned, the trailing code removes the zip and
raises `RuntimeError` — but only when the zip exists, since the
`raise` statement sits inside the `if os.path.exists(zip_path)` block;
with no zip left behind the function falls off the end and returns
`None`. -/
def sync_download_and_extract (env : Nat → AttemptBehavior)
    (language_code output_dir : String) (s : SyncState) :
    SyncState × SyncResult :=
  let model_path := output_dir ++ "/" ++ language_code
  if (match s.model with
      | some es => !es.isEmpty
      | none => false) then
    (s, .returned (some model_path))
  else
    match syncAttemptLoop env model_path 0 3 s with
    | (s', some p) => (s', .returned (some p))
    | (s', none) =>
      if s'.zipExists then
        ({ s' with zipExists := false },
          .raised "Failed to download and extract model")
      else
        (s', .returned none)

/-- A fresh state: no zip, no staging directory, no installed model,
no sleeps, no network calls yet. -/
def initState : SyncState :=
  { zipExists := false, staging := none, model := none,
    sleeps := [], netCalls := 0 }

/-- `urllib.parse` scheme characters. -/
def isSchemeChar (c : Char) : Bool :=
  c.isAlphanum || c == '+' || c == '-' || c == '.'

/-- The characters before the first `':'` of the URL, or `none` when
the URL has no `':'` at all. -/
def schemeSplit : List Char → Option (List Char)
  | [] => none
  | c :: rest =>
    if c = ':' then some []
    else (schemeSplit rest).map (fun l => c :: l)

/-- Whether a candidate scheme is syntactically valid for
`urllib.parse.urlparse`: non-empty, starting with a letter, all
remaining characters scheme characters. -/
def validScheme : List Char → Bool
  | [] => false
  | c :: rest => c.isAlpha && rest.all isSchemeChar

/-- The `scheme` component `urllib.parse.urlparse(url)` returns: the
lowercased text before the first `':'` when it is a valid scheme,
otherwise the empty string. -/
def parseScheme (url : String) : String :=
  match schemeSplit url.toList with
  | some pre => if validScheme pre then ⟨pre.map Char.toLower⟩ else ""
  | none => ""

/-- `FileManager.download_and_extract_model(url, language_code,
output_dir)` (file_manager.py lines 413-422): raise `ValueError`
("Invalid model URL") when the parsed scheme does not start with
`"http"`, before any network request or disk write; otherwise run the
synchronous download in an executor.  (`session.mount` configures an
adapter and performs no I/O.) -/
def download_and_extract_model (url language_code output_dir : String)
    (env : Nat → AttemptBehavior) (s : SyncState) :
    Except String (SyncState × SyncResult) :=
  if !listStartsWith (parseScheme url).toList "http".toList then
    Except.error "Invalid model URL"
  else
    Except.ok (sync_download_and_extract env language_code output_dir s)

/-- Whether the call was rejected with the invalid-URL error. -/
def isInvalidUrlError :
    Except String (SyncState × SyncResult) → Bool
  | .error _ => true
  | .ok _ => false

/-- An entry directly under the temp root as `cleanup_temp_dirs` sees
it: a directory whose recursive removal succeeds, a directory whose
removal raises (caught and logged), or a non-directory entry. -/
inductive TempEntry where
  | dirOk : TempEntry
  | dirStuck : TempEntry
  | plainFile : TempEntry
deriving DecidableEq, Repr

/-- `FileManager.cleanup_temp_dirs()` (file_manager.py lines 424-433):
iterate over `os.listdir` of the temp root; for each entry that is a
directory, `shutil.rmtree` it, catching and logging any exception and
continuing with the remaining entries.  Returns the entries remaining
under the temp root afterwards. -/
def cleanup_temp_dirs : List (String × TempEntry) →
    List (String × TempEntry)
  | [] => []
  | (n, e) :: rest =>
    match e with
    | .dirOk => cleanup_temp_dirs rest
    | .dirStuck => (n, TempEntry.dirStuck) :: cleanup_temp_dirs rest
    | .plainFile => (n, TempEntry.plainFile) :: cleanup_temp_dirs rest

/-- C1: whenever `validate_path` returns a path, that path is the
resolved form of the input and is equal to or a descendant of some
member of the allowed-directory list that currently exists on disk; a
path outside all existing allowed roots is never returned. -/
theorem C1_validate_path_sandbox (env : ValidateEnv) (p : PyPath)
    (r : List String) (h : validate_path env p = Except.ok r) :
    r = resolvePath env.cwd p ∧
      ∃ d, d ∈ allowedDirs env ∧ dirExists env d = true ∧
        listIsAncestor d r = true := by
  simp only [validate_path] at h
  split at h
  · exact Except.noConfusion h
  · split at h
    · rename_i hany
      injection h with h
      subst h
      refine ⟨rfl, ?_⟩
      obtain ⟨d, hdmem, hd⟩ := List.any_eq_true.mp hany
      have hm := List.mem_filter.mp hdmem
      exact ⟨d, hm.1, hm.2, hd⟩
    · exact Except.noConfusion h

/-- Concrete desktop environment used to witness C1. -/
def C1_env : ValidateEnv :=
  { mobileEnabled := false, androidCache := none, androidInternal := [],
    baseData := ["app", "data"], tempDir := ["tmp"],
    existing := [["app", "data"], ["tmp"]], cwd := [] }

/-- Witness for C1 at a concrete environment and input. -/
theorem C1_validate_path_sandbox_witness :
    (["app", "data", "models", "en"] : List String) =
        resolvePath C1_env.cwd ⟨true, ["app", "data", "models", "en"]⟩ ∧
      ∃ d, d ∈ allowedDirs C1_env ∧ dirExists C1_env d = true ∧
        listIsAncestor d ["app", "data", "models", "en"] = true :=
  C1_validate_path_sandbox C1_env ⟨true, ["app", "data", "models", "en"]⟩
    ["app", "data", "models", "en"] (by rfl)

/-- C2 (code bug): when all three attempts fail before the zip is
written — for example three network failures — the loop exhausts, the
trailing `if os.path.exists(zip_path)` is false, and the function
returns `None` normally instead of raising: the `raise` statement is
indented inside that `if`.  No zip is left behind, but no acquisition
error is raised either, contradicting the claim and the spec. -/
theorem C2_allNetFail_returns_none :
    sync_download_and_extract (fun _ => AttemptBehavior.netFail)
        "en" "models" initState =
      ({ initState with netCalls := 3, sleeps := [2, 4, 6] },
        SyncResult.returned none) := by
  rfl

/-- C3: when the model directory already exists and is non-empty,
`_sync_download_and_extract` returns its path at once, performs no
network request and no filesystem change (the state is untouched), and
a second call on the resulting state returns the same path again. -/
theorem C3_idempotent_skip (env : Nat → AttemptBehavior)
    (language_code output_dir : String) (s : SyncState)
    (es : List (String × FNode)) (h1 : s.model = some es)
    (h2 : es ≠ []) :
    sync_download_and_extract env language_code output_dir s =
        (s, SyncResult.returned
          (some (output_dir ++ "/" ++ language_code))) ∧
      sync_download_and_extract env language_code output_dir
          (sync_download_and_extract env language_code output_dir s).1 =
        (s, SyncResult.returned
          (some (output_dir ++ "/" ++ language_code))) := by
  have hmain : sync_download_and_extract env language_code output_dir s =
      (s, SyncResult.returned
        (some (output_dir ++ "/" ++ language_code))) := by
    unfold sync_download_and_extract
    rw [h1]
    cases es with
    | nil => exact absurd rfl h2
    | cons a t => simp
  exact ⟨hmain, by rw [hmain]; exact hmain⟩

/-- State with the model for C3's witness already installed. -/
def C3_state : SyncState :=
  { initState with model := some [("am", FNode.file)] }

/-- Witness for C3 at a concrete installed state. -/
theorem C3_idempotent_skip_witness :
    sync_download_and_extract (fun _ => AttemptBehavior.netFail)
        "en" "models" C3_state =
        (C3_state, SyncResult.returned (some ("models" ++ "/" ++ "en"))) ∧
      sync_download_and_extract (fun _ => AttemptBehavior.netFail)
          "en" "models"
          (sync_download_and_extract (fun _ => AttemptBehavior.netFail)
            "en" "models" C3_state).1 =
        (C3_state, SyncResult.returned (some ("models" ++ "/" ++ "en"))) :=
  C3_idempotent_skip (fun _ => AttemptBehavior.netFail) "en" "models"
    C3_state [("am", FNode.file)] rfl (List.cons_ne_nil _ _)

/-- C5 (counterexample): an attempt whose extraction raises ends (after
the `except` handler, which only logs and sleeps) with the zip still
present and the staging directory still present — cleanup happens only
on the success path, so the claim as stated is false. -/
theorem C5_counterexample :
    ((syncAttemptLoop (fun _ => AttemptBehavior.extractFail
        [("am", FNode.file)]) "models/en" 0 1 initState).1.zipExists
      = true) ∧
      ((syncAttemptLoop (fun _ => AttemptBehavior.extractFail
          [("am", FNode.file)]) "models/en" 0 1 initState).1.staging
        = some [("am", FNode.file)]) :=
  ⟨rfl, rfl⟩

/-- C5 (amended): the staging directory and the zip are removed by the
end of an attempt on its success path; on a failure path they are left
in place (an attempt that fails after download and extraction ends
with the zip present). -/
theorem C5_success_path_cleanup (arc leftover : List (String × FNode))
    (s : SyncState) :
    (runAttempt (AttemptBehavior.succeed arc) s).1.staging = none ∧
      (runAttempt (AttemptBehavior.succeed arc) s).1.zipExists = false ∧
      (runAttempt (AttemptBehavior.extractFail leftover) s).1.zipExists
        = true ∧
      (runAttempt (AttemptBehavior.extractFail leftover) s).1.staging
        = some leftover :=
  ⟨rfl, rfl, rfl, rfl⟩

/-- A staging directory containing the whitelisted folder names `am`
and `conf` as entries cannot consist of a single directory entry, so
layout normalization leaves it unchanged. -/
theorem archiveRoot_of_required (es : List (String × FNode))
    (ham : (lookupEntry "am" es).isSome = true)
    (hconf : (lookupEntry "conf" es).isSome = true) :
    archiveRoot es = es := by
  match es with
  | [] => rfl
  | [(n, e)] =>
    cases e with
    | file => rfl
    | dir ds =>
      exfalso
      by_cases h1 : n = "am"
      · subst h1
        simp [lookupEntry] at hconf
      · simp [lookupEntry, h1] at ham
  | a :: b :: rest => rfl

/-- Every entry produced by the promotion fold either was in the
accumulator or carries a whitelisted name. -/
theorem mem_promotion_fold (L : List String)
    (root : List (String × FNode)) (acc : List (String × FNode))
    (x : String × FNode)
    (hx : x ∈ L.foldl
      (fun acc f =>
        match lookupEntry f root with
        | some t => acc ++ [(f, t)]
        | none => acc) acc) :
    x ∈ acc ∨ x.1 ∈ L := by
  induction L generalizing acc with
  | nil => exact Or.inl hx
  | cons f fs ih =>
    simp only [List.foldl_cons] at hx
    cases hval : lookupEntry f root with
    | none =>
      rw [hval] at hx
      rcases ih acc hx with h | h
      · exact Or.inl h
      · exact Or.inr (List.mem_cons_of_mem _ h)
    | some t =>
      rw [hval] at hx
      rcases ih (acc ++ [(f, t)]) hx with h | h
      · rcases List.mem_append.mp h with h' | h'
        · exact Or.inl h'
        · refine Or.inr ?_
          have : x = (f, t) := by simpa using h'
          rw [this]
          exact List.mem_cons_self _ _
      · exact Or.inr (List.mem_cons_of_mem _ h)

/-- C6: when the payload contains the four required sub-directories,
installing from a staging directory that wraps the payload in a single
wrapper directory yields exactly the same bundle as installing from
the payload at top level, and every installed entry carries one of the
four whitelisted names (everything else is discarded). -/
theorem C6_layout_normalization (w : String)
    (es : List (String × FNode))
    (ham : (lookupEntry "am" es).isSome = true)
    (hconf : (lookupEntry "conf" es).isSome = true)
    (_hgraph : (lookupEntry "graph" es).isSome = true)
    (_hivector : (lookupEntry "ivector" es).isSome = true) :
    installBundle [(w, FNode.dir es)] = installBundle es ∧
      ∀ x ∈ installBundle es, x.1 ∈ requiredFolders := by
  have hroot : archiveRoot es = es := archiveRoot_of_required es ham hconf
  constructor
  · unfold installBundle
    have hw : archiveRoot [(w, FNode.dir es)] = es := rfl
    rw [hw, hroot]
  · intro x hx
    unfold installBundle at hx
    rcases mem_promotion_fold requiredFolders (archiveRoot es) [] x hx with
      h | h
    · exact absurd h (List.not_mem_nil x)
    · exact h

/-- A concrete payload with the four required directories plus an
extra file, used to witness C6. -/
def C6_payload : List (String × FNode) :=
  [("am", FNode.dir []), ("conf", FNode.dir []), ("graph", FNode.dir []),
   ("ivector", FNode.dir []), ("README", FNode.file)]

/-- Witness for C6 at a concrete archive payload. -/
theorem C6_layout_normalization_witness :
    installBundle [("wrapper", FNode.dir C6_payload)] =
        installBundle C6_payload ∧
      ∀ x ∈ installBundle C6_payload, x.1 ∈ requiredFolders :=
  C6_layout_normalization "wrapper" C6_payload rfl rfl rfl rfl

/-- C7 (counterexample): the URL `httpx://example.com` parses to the
scheme `httpx`, which is neither `http` nor `https`, yet
`download_and_extract_model` does not reject it — the check only asks
whether the scheme starts with `"http"`. -/
theorem C7_counterexample :
    parseScheme "httpx://example.com" = "httpx" ∧
      ¬(parseScheme "httpx://example.com" = "http" ∨
        parseScheme "httpx://example.com" = "https") ∧
      isInvalidUrlError
        (download_and_extract_model "httpx://example.com" "en" "models"
          (fun _ => AttemptBehavior.netFail) initState) = false :=
  ⟨by decide, by decide, rfl⟩

/-- C7 (amended): `download_and_extract_model` rejects, with the
invalid-URL error and before any network request or disk write (the
error branch returns without running the download), every url whose
parsed scheme does not start with `"http"`; schemes that merely start
with `"http"`, such as `httpx`, are accepted. -/
theorem C7_scheme_rejection (url language_code output_dir : String)
    (env : Nat → AttemptBehavior) (s : SyncState)
    (h : listStartsWith (parseScheme url).toList "http".toList = false) :
    download_and_extract_model url language_code output_dir env s =
      Except.error "Invalid model URL" := by
  have h' : listStartsWith (parseScheme url).data ['h', 't', 't', 'p']
      = false := by simpa [String.toList] using h
  simp [download_and_extract_model, h']

/-- Witness for C7's amended statement at a concrete `ftp` URL. -/
theorem C7_scheme_rejection_witness :
    download_and_extract_model "ftp://host/model.zip" "en" "models"
        (fun _ => AttemptBehavior.netFail) initState =
      Except.error "Invalid model URL" :=
  C7_scheme_rejection "ftp://host/model.zip" "en" "models"
    (fun _ => AttemptBehavior.netFail) initState (by decide)

/-- Attempt environment for C8: two network failures, then success. -/
def envFailFailSucceed (arc : List (String × FNode)) :
    Nat → AttemptBehavior :=
  fun n =>
    match n with
    | 0 => AttemptBehavior.netFail
    | 1 => AttemptBehavior.netFail
    | _ => AttemptBehavior.succeed arc

/-- C8: with two consecutive failures followed by a success on attempt
3, the call performs exactly the two linear backoff waits of
`2 * 1 = 2` and `2 * 2 = 4` seconds, makes three network requests, and
returns the installed bundle's path with the bundle promoted and the
staging directory and zip gone. -/
theorem C8_linear_backoff (arc : List (String × FNode))
    (language_code output_dir : String) (s : SyncState)
    (hm : s.model = none) (hs : s.sleeps = []) :
    sync_download_and_extract (envFailFailSucceed arc)
        language_code output_dir s =
      ({ s with zipExists := false, staging := none,
                model := some (installBundle arc),
                sleeps := [2, 4], netCalls := s.netCalls + 3 },
        SyncResult.returned
          (some (output_dir ++ "/" ++ language_code))) := by
  cases s with
  | mk z st m sl nc =>
    simp only at hm hs
    subst hm
    subst hs
    rfl

/-- Witness for C8 at a concrete archive and the fresh state. -/
theorem C8_linear_backoff_witness :
    sync_download_and_extract (envFailFailSucceed C6_payload)
        "en" "models" initState =
      ({ initState with zipExists := false, staging := none,
                        model := some (installBundle C6_payload),
                        sleeps := [2, 4],
                        netCalls := initState.netCalls + 3 },
        SyncResult.returned (some ("models" ++ "/" ++ "en"))) :=
  C8_linear_backoff C6_payload "en" "models" initState rfl rfl

/-- C9 (counterexample): a non-directory entry directly under the temp
root is listed but never removed — `cleanup_temp_dirs` only removes
entries for which `os.path.isdir` holds, and no deletion failure is
involved — so the claim that every entry is removed is false. -/
theorem C9_counterexample :
    cleanup_temp_dirs [("stray.txt", TempEntry.plainFile)] =
      [("stray.txt", TempEntry.plainFile)] :=
  rfl

/-- C9 (amended): the sweep removes exactly the directory entries whose
recursive deletion succeeds; a directory whose deletion fails is
logged and skipped, a non-directory entry is skipped, and in both
cases the sweep continues over the remaining entries instead of
aborting. -/
theorem C9_sweep_filter (entries : List (String × TempEntry)) :
    cleanup_temp_dirs entries =
      entries.filter (fun e =>
        match e.2 with
        | TempEntry.dirOk => false
        | TempEntry.dirStuck => true
        | TempEntry.plainFile => true) := by
  induction entries with
  | nil => rfl
  | cons hd tl ih =>
    obtain ⟨n, e⟩ := hd
    cases e <;> simp [cleanup_temp_dirs, ih, List.filter_cons]

/-- C10: on a non-Windows platform, `ensure_directory_exists` applies
mode `0o777` to the created directory exactly when its path string
contains the substring `"temp"` anywhere — including paths such as
`/app/templates` that are not under the temp subtree — and applies no
chmod otherwise. -/
theorem C10_temp_chmod (path osName : String) (h : ¬osName = "nt") :
    DirAction.chmod path 0o777 ∈ ensure_directory_exists path osName ↔
      strContains path "temp" = true := by
  by_cases hc : strContains path "temp" = true
  · simp [ensure_directory_exists, hc, h]
  · simp [ensure_directory_exists, hc, h]

/-- Witness for C10: the path `/app/templates` is not under any temp
subtree but contains the substring `"temp"`, so it is chmodded on a
POSIX platform. -/
theorem C10_temp_chmod_witness :
    DirAction.chmod "/app/templates" 0o777 ∈
      ensure_directory_exists "/app/templates" "posix" :=
  (C10_temp_chmod "/app/templates" "posix" (by decide)).mpr (by decide)

/-- Normalization distributes over concatenation of the component
list. -/
theorem normComps_append (xs ys acc : List String) :
    normComps acc (xs ++ ys) = normComps (normComps acc xs) ys := by
  induction xs generalizing acc with
  | nil => rfl
  | cons c rest ih =>
    by_cases h1 : c = "."
    · simp only [List.cons_append, normComps, if_pos h1]
      exact ih acc
    · by_cases h2 : c = ".."
      · simp only [List.cons_append, normComps, if_neg h1, if_pos h2]
        exact ih acc.dropLast
      · simp only [List.cons_append, normComps, if_neg h1, if_neg h2]
        exact ih (acc ++ [c])

/-- A leading `".."` removes the last accumulated component. -/
theorem normComps_dotdot (acc : List String) (xs : List String) :
    normComps acc (".." :: xs) = normComps acc.dropLast xs := by
  simp only [normComps]
  rw [if_neg (by decide : ¬((".." : String) = "."))]
  simp

/-- A leading plain component is appended to the accumulator. -/
theorem normComps_plain (acc xs : List String) (c : String)
    (h1 : ¬c = ".") (h2 : ¬c = "..") :
    normComps acc (c :: xs) = normComps (acc ++ [c]) xs := by
  simp only [normComps]
  rw [if_neg h1, if_neg h2]

/-- Normalizing the `"../../etc/passwd"` components against any
accumulated base drops the base's last two components and appends
`etc/passwd`. -/
theorem normComps_traversal (acc : List String) :
    normComps acc ["..", "..", "etc", "passwd"] =
      acc.dropLast.dropLast ++ ["etc", "passwd"] := by
  rw [normComps_dotdot, normComps_dotdot,
    normComps_plain _ _ _ (by decide) (by decide),
    normComps_plain _ _ _ (by decide) (by decide)]
  show acc.dropLast.dropLast ++ ["etc"] ++ ["passwd"] = _
  simp

/-- Resolving the join of any base with `"../../etc/passwd"` drops the
last two components of the resolved base and appends `etc/passwd`. -/
theorem resolve_join_traversal (cwd : List String) (base : PyPath) :
    resolvePath cwd (joinpath base traversalSegment) =
      (resolvePath cwd base).dropLast.dropLast ++ ["etc", "passwd"] := by
  show resolvePath cwd ⟨base.isAbs, base.comps ++ _⟩ = _
  unfold resolvePath
  rw [← List.append_assoc, normComps_append]
  exact normComps_traversal _

/-- On lists of equal length, the ancestor test is equality. -/
theorem listIsAncestor_eq_of_length (a : List String) :
    ∀ b : List String, a.length = b.length →
      (listIsAncestor a b = true ↔ a = b) := by
  induction a with
  | nil =>
    intro b h
    cases b with
    | nil => simp [listIsAncestor]
    | cons y ys => simp at h
  | cons x xs ih =>
    intro b h
    cases b with
    | nil => simp at h
    | cons y ys =>
      have h' : xs.length = ys.length := by simpa using h
      simp [listIsAncestor, ih ys h', List.cons.injEq]

/-- C4 (counterexample): with the filesystem root as the base,
`sanitize_path("../../etc/passwd", base)` resolves to `/etc/passwd`,
which is a descendant of the root, so no security error is raised —
refuting the claim that the traversal segment is rejected for every
base. -/
theorem C4_counterexample :
    sanitize_path [] traversalSegment ⟨true, []⟩ =
      Except.ok ["etc", "passwd"] := by
  rfl

/-- C4 (amended): `sanitize_path` raises the security error exactly
when the resolved join is not the resolved base or a descendant of it;
in particular `sanitize_path("../../etc/passwd", base)` raises for
every base whose resolved path has at least two components and does
not itself end in `etc/passwd` (bases at the root or one level deep,
such as `/` or `/etc`, are the exceptions the counterexample forces). -/
theorem C4_traversal_guard :
    (∀ (cwd : List String) (user base : PyPath),
      (sanitize_path cwd user base =
          Except.error "Attempted directory traversal" ↔
        listIsAncestor (resolvePath cwd base)
          (resolvePath cwd (joinpath base user)) = false)) ∧
    (∀ (cwd : List String) (base : PyPath),
      2 ≤ (resolvePath cwd base).length →
      resolvePath cwd base ≠
        (resolvePath cwd base).dropLast.dropLast ++ ["etc", "passwd"] →
      sanitize_path cwd traversalSegment base =
        Except.error "Attempted directory traversal") := by
  constructor
  · intro cwd user base
    unfold sanitize_path
    cases h : listIsAncestor (resolvePath cwd base)
      (resolvePath cwd (joinpath base user)) <;> simp [h]
  · intro cwd base hlen hne
    have hlen2 : (resolvePath cwd base).length =
        ((resolvePath cwd base).dropLast.dropLast ++
          ["etc", "passwd"]).length := by
      simp [List.length_dropLast]
      omega
    have hanc : listIsAncestor (resolvePath cwd base)
        ((resolvePath cwd base).dropLast.dropLast ++
          ["etc", "passwd"]) = false := by
      cases h : listIsAncestor (resolvePath cwd base)
        ((resolvePath cwd base).dropLast.dropLast ++ ["etc", "passwd"])
      · rfl
      · exact absurd ((listIsAncestor_eq_of_length _ _ hlen2).mp h) hne
    simp only [sanitize_path]
    rw [resolve_join_traversal, hanc]
    rfl

/-- Witness for C4's amended statement: a two-component base for which
the traversal segment is rejected. -/
theorem C4_traversal_guard_witness :
    sanitize_path [] traversalSegment ⟨true, ["home", "user"]⟩ =
      Except.error "Attempted directory traversal" :=
  C4_traversal_guard.2 [] ⟨true, ["home", "user"]⟩ (by decide) (by decide)

end TranscrevAI
